import Mathlib

/-!
Shallow embedding of the EV Charger Site Generator (src/app.py) used to check
the repository's natural-language specification.

Modelling conventions:
* Python floats are modelled as exact rationals (`ℚ`); `round(x, 2)` is
  modelled by `round2` below (Python uses banker's rounding on binary
  floats; no value evaluated in this development sits on a rounding tie,
  so the two agree on every concrete input used here).
* Every HTTP request is represented by an `Except String payload` oracle
  in a `Net` environment: `.error msg` models the request (or its JSON
  parsing) raising an exception whose rendered message is `msg`, and
  `.ok payload` models a response, with the payload holding exactly the
  parts of the provider JSON the code reads.
* `st.warning` calls are collected into a `List String` log, and each
  adapter reports how many HTTP requests it attempted, so that
  "failure reason retained" and "zero network calls" become provable
  statements.
* A function that can raise a Python exception past its own boundary is
  given an `Except String` result; functions whose bodies catch every
  exception are total.
-/

/-- Python `round(x, 2)` on the exact rational value. -/
def round2 (q : ℚ) : ℚ := (round (q * 100) : ℚ) / 100

/-- `calculate_kva` from src/app.py: total kW over power factor 0.9, times a
10% overhead, rounded to two decimals. -/
def calculate_kva (fast rapid ultra : ℤ) (fast_kw rapid_kw ultra_kw : ℚ) : ℚ :=
  let total_kw : ℚ := fast * fast_kw + rapid * rapid_kw + ultra * ultra_kw
  round2 (total_kw / 0.9 * 1.1)

/-- The capacity formula as the specification states it (no 1.1 overhead
factor), written from the spec's words for comparison with `calculate_kva`. -/
def required_kva_spec (fast rapid ultra : ℤ) (fast_kw rapid_kw ultra_kw : ℚ) : ℚ :=
  round2 ((fast * fast_kw + rapid * rapid_kw + ultra * ultra_kw) / 0.9)

/-! ### Road-type classification (`classify_road_type`, `classify_road_type_from_name`) -/

/-- Keyword list of the Motorway branch of `classify_road_type_from_name`. -/
def motorwayKeys : List String :=
  ["motorway", "m1", "m25", "m2", "m3", "m4", "m5", "m6"]

/-- Keyword list of the Dual Carriageway branch. -/
def dualKeys : List String := ["dual carriageway", "bypass"]

/-- Keyword list of the Local Road branch. -/
def localKeys : List String :=
  ["street", "road", "avenue", "lane", "drive", "close", "way"]

/-- Keyword list of the Roundabout branch. -/
def roundaboutKeys : List String := ["roundabout", "circus"]

/-- Python `str.split()` (split on whitespace runs, dropping empty pieces). -/
def pysplitWs (cs : List Char) : List (List Char) :=
  (cs.splitOnP (fun c => c.isWhitespace)).filter (fun w => w ≠ [])

/-- Python `needle in hay` on lowercase strings, as used by the keyword tests. -/
def strContains (hay : List Char) (needle : String) : Bool :=
  decide (needle.toList <:+: hay)

/-- The `road_name_lower.startswith(c) and len(road_name) > 1 and
road_name[1:].split()[0].isdigit()` test of `classify_road_type_from_name`.
When `road_name[1:]` is all whitespace, `split()` is empty and the `[0]`
index raises `IndexError: list index out of range`. -/
def letterDigitCond (c : Char) (cs lower : List Char) : Except String Bool :=
  if lower.take 1 = [c] ∧ cs.length > 1 then
    match pysplitWs (cs.drop 1) with
    | [] => .error "list index out of range"
    | w :: _ => .ok (w.all Char.isDigit)
  else .ok false

/-- `classify_road_type_from_name` from src/app.py (UK name patterns).
The result is `.error msg` when the Python code would raise. -/
def classify_road_type_from_name (road_name : String) : Except String String :=
  if road_name = "" ∨ road_name = "Unknown Road" then pure "Local Road"
  else
    let cs := road_name.toList
    let lower := cs.map Char.toLower
    if motorwayKeys.any (fun k => strContains lower k) then pure "Motorway"
    else do
      let aHit ← letterDigitCond 'a' cs lower
      if aHit then pure "A Road"
      else do
        let bHit ← letterDigitCond 'b' cs lower
        if bHit then pure "B Road"
        else if dualKeys.any (fun k => strContains lower k) then pure "Dual Carriageway"
        else if localKeys.any (fun k => strContains lower k) then pure "Local Road"
        else if roundaboutKeys.any (fun k => strContains lower k) then pure "Roundabout"
        else pure "Local Road"

/-- `classify_road_type` from src/app.py: Google Places type tags first,
falling back to the name-based classification. -/
def classify_road_type (place_types : List String) (road_name : String) :
    Except String String :=
  if place_types.contains "highway" then pure "Highway"
  else if place_types.contains "primary" then pure "Primary Road"
  else if place_types.contains "secondary" then pure "Secondary Road"
  else if place_types.contains "tertiary" then pure "Tertiary Road"
  else if place_types.contains "residential" then pure "Residential Street"
  else if place_types.contains "service" then pure "Service Road"
  else if place_types.contains "trunk" then pure "Trunk Road"
  else if place_types.contains "route" then pure "Route"
  else classify_road_type_from_name road_name

/-! ### TomTom traffic (`get_tomtom_traffic`) -/

/-- The `flowSegmentData` part of a TomTom response; a missing field is
`none` (the code reads it with `.get`). -/
structure FlowData where
  currentSpeed : Option ℚ
  freeFlowSpeed : Option ℚ
deriving DecidableEq, Repr

/-- A parsed TomTom HTTP response: status code and flow payload (an absent
`flowSegmentData` key yields the empty `FlowData`). -/
structure TomTomResp where
  status : ℤ
  flow : FlowData
deriving DecidableEq, Repr

/-- Traffic fields as returned by `get_tomtom_traffic`. -/
structure TrafficInfo where
  speed : Option ℚ
  freeFlow : Option ℚ
  congestion : String
deriving DecidableEq, Repr

/-- `get_tomtom_traffic` from src/app.py.  Result is the traffic dict, the
`st.warning` log, and the number of HTTP requests attempted. -/
def get_tomtom_traffic (hasKey : Bool) (net : Except String TomTomResp) :
    TrafficInfo × List String × ℕ :=
  if hasKey = false then (⟨none, none, "N/A"⟩, [], 0)
  else
    match net with
    | .error e => (⟨none, none, "N/A"⟩, ["TomTom API error: " ++ e], 1)
    | .ok resp =>
      if resp.status = 200 then
        match resp.flow.currentSpeed, resp.flow.freeFlowSpeed with
        | some sp, some ff =>
          if sp ≠ 0 ∧ ff ≠ 0 ∧ ff > 0 then
            let ratio := sp / ff
            let level := if ratio > 0.85 then "Low"
                         else if ratio > 0.6 then "Medium"
                         else "High"
            (⟨some sp, some ff, level⟩, [], 1)
          else (⟨none, none, "N/A"⟩, [], 1)
        | _, _ => (⟨none, none, "N/A"⟩, [], 1)
      else (⟨none, none, "N/A"⟩, [], 1)

/-! ### British National Grid conversion (`convert_to_british_grid`) -/

/-- `convert_to_british_grid` from src/app.py.  The pyproj transformer is an
oracle `transform`; `.error msg` models `transformer.transform` raising.
The `try` block catches every exception, returning `(None, None)` with a
warning, so the embedded function is total. -/
def convert_to_british_grid (transform : ℚ → ℚ → Except String (ℚ × ℚ))
    (lat lon : ℚ) : (Option ℤ × Option ℤ) × List String :=
  match transform lat lon with
  | .ok p => ((some (round p.1), some (round p.2)), [])
  | .error msg => ((none, none), ["Coordinate transformation error: " ++ msg])

/-! ### Provider adapters

Each adapter returns its value, the list of `st.warning` messages it
emitted, and the number of HTTP requests it attempted. -/

/-- Outcome of one adapter call: value, warning log, HTTP request count. -/
structure AdapterOut (α : Type) where
  val : α
  warnings : List String
  calls : ℕ
deriving Repr

/-- One entry of the postcodes.io `result` array (fields read with `.get`). -/
structure PostcodeResult where
  postcode : Option String
  admin_ward : Option String
  admin_district : Option String
deriving DecidableEq, Repr

/-- A parsed postcodes.io response: the JSON `status` field and the
`result` array (`[]` also covers a JSON `null` result, which is equally
falsy in the Python truth test). -/
structure PostcodeResp where
  status : ℤ
  result : List PostcodeResult
deriving DecidableEq, Repr

/-- `get_postcode_info` from src/app.py. -/
def get_postcode_info (net : Except String PostcodeResp) :
    AdapterOut (String × String × String) :=
  match net with
  | .error e => ⟨("N/A", "N/A", "N/A"), ["Postcode API error: " ++ e], 1⟩
  | .ok data =>
    match data.result, decide (data.status = 200) with
    | r :: _, true =>
      ⟨(r.postcode.getD "N/A", r.admin_ward.getD "N/A", r.admin_district.getD "N/A"), [], 1⟩
    | _, _ => ⟨("N/A", "N/A", "N/A"), [], 1⟩

/-- The `details` dict built by `get_geocode_details` from the Google
address components; a `none` field means the component type was absent so
the key was never set.  `formatted_address` is always set on a successful
response, possibly to Python `None` (the inner `Option`). -/
structure GeocodeDetails where
  street : Option String
  street_number : Option String
  neighborhood : Option String
  city : Option String
  county : Option String
  region : Option String
  postcode : Option String
  country : Option String
  formatted_address : Option String
deriving DecidableEq, Repr

/-- `get_geocode_details` from src/app.py.  The oracle payload is
`none` when the response status is not OK or the results array is empty
(the code then returns the empty dict), and `some d` when the component
loop produced the details `d`; the component-extraction loop itself is
abstracted into the payload. -/
def get_geocode_details (net : Except String (Option GeocodeDetails)) :
    AdapterOut (Option GeocodeDetails) :=
  match net with
  | .error e => ⟨none, ["Geocoding API error: " ++ e], 1⟩
  | .ok d => ⟨d, [], 1⟩

/-- One EV charging station record as assembled by
`get_ev_charging_stations` (only the fields the claims mention). -/
structure EVStation where
  name : String
  latitude : Option ℚ
  longitude : Option ℚ
deriving DecidableEq, Repr

/-- `get_ev_charging_stations` from src/app.py.  The multi-request
search/dedup/details pipeline is abstracted into a single oracle whose
`.ok` payload is the final station list; its outer `try` catches any
request exception, warns, and returns the (then empty) accumulator.  The
call count abstracts the many sub-requests to a single attempt. -/
def get_ev_charging_stations (net : Except String (List EVStation)) :
    AdapterOut (List EVStation) :=
  match net with
  | .error e => ⟨[], ["Error searching for EV stations: " ++ e], 1⟩
  | .ok sts => ⟨sts, [], 1⟩

/-- One Google Places nearby-search result, as read by
`get_nearby_amenities` (`rating` is kept as its rendered string; `none`
means the key was absent, defaulting to `"N/A"`). -/
structure AmenPlace where
  name : String
  rating : Option String
deriving DecidableEq, Repr

/-- A parsed nearby-search response for one place type. -/
structure AmenTypeResp where
  httpStatus : ℤ
  apiStatus : String
  results : List AmenPlace
deriving DecidableEq, Repr

/-- The fixed place-type list of `get_nearby_amenities`. -/
def placeTypes : List String :=
  ["restaurant", "cafe", "shopping_mall", "supermarket", "hospital",
   "pharmacy", "bank", "atm", "lodging", "gas_station"]

/-- EV keywords used to filter amenities. -/
def amenEvKeys : List String := ["electric", "ev", "charging", "tesla", "chargepoint"]

/-- Helper of `pyTitle`: Python `str.title()` over a character list, the
Boolean tracking whether the previous character was alphabetic. -/
def pyTitleGo : Bool → List Char → List Char
  | _, [] => []
  | prevAlpha, c :: cs =>
    if c.isAlpha then
      (if prevAlpha then c.toLower else c.toUpper) :: pyTitleGo true cs
    else c :: pyTitleGo false cs

/-- Python `s.replace("_", " ").title()` for the display type. -/
def pyTitle (s : String) : String :=
  String.mk (pyTitleGo false (s.toList.map (fun c => if c = '_' then ' ' else c)))

/-- The amenity strings contributed by one place's search result. -/
def amenEntry (place_type : String) (p : AmenPlace) : List String :=
  let ratingStr := p.rating.getD "N/A"
  if amenEvKeys.any (fun k => strContains (p.name.toList.map Char.toLower) k) then []
  else
    let info := p.name ++ " (" ++ pyTitle place_type ++ ")"
    [if ratingStr ≠ "N/A" then info ++ " ⭐" ++ ratingStr else info]

/-- Processing of one place type inside the `get_nearby_amenities` loop:
amenities added and warnings emitted. -/
def amenForType (place_type : String) (resp : AmenTypeResp) :
    List String × List String :=
  if resp.httpStatus = 200 then
    if resp.apiStatus = "OK" then
      (((resp.results.take 3).map (amenEntry place_type)).flatten, [])
    else if resp.apiStatus = "ZERO_RESULTS" then ([], [])
    else ([], ["Places API error for " ++ place_type ++ ": " ++ resp.apiStatus])
  else ([], ["HTTP error " ++ toString resp.httpStatus ++ " for " ++ place_type])

/-- The request loop of `get_nearby_amenities`: a raised request exception
escapes to the outer handler, which returns the error string (warnings
already emitted are kept). -/
def amenLoop (net : String → Except String AmenTypeResp) :
    List String → List String → List String → ℕ → AdapterOut String
  | [], ams, ws, cnt =>
    ⟨if ams = [] then "None nearby" else String.intercalate "; " (ams.take 15), ws, cnt⟩
  | pt :: rest, ams, ws, cnt =>
    match net pt with
    | .error e =>
      ⟨"Error retrieving amenities: " ++ e, ws ++ ["Places API error: " ++ e], cnt + 1⟩
    | .ok resp =>
      let pr := amenForType pt resp
      amenLoop net rest (ams ++ pr.1) (ws ++ pr.2) (cnt + 1)

/-- `get_nearby_amenities` from src/app.py. -/
def get_nearby_amenities (net : String → Except String AmenTypeResp) :
    AdapterOut String :=
  amenLoop net placeTypes [] [] 0

/-! ### Google Roads adapter (`get_road_info_google_roads`) -/

/-- A parsed snap-to-roads / nearest-roads response: HTTP status and the
`placeId` of the first snapped point (`none` collapses an empty or absent
`snappedPoints` array and a missing `placeId`, which the code treats the
same way). -/
structure SnapResp where
  httpStatus : ℤ
  placeId : Option String
deriving DecidableEq, Repr

/-- A parsed place-details response used for road naming. -/
structure PlaceDetailsResp where
  httpStatus : ℤ
  apiStatus : String
  name : Option String
  types : List String
deriving DecidableEq, Repr

/-- A parsed reverse-geocoding response for the road-name fallback:
`routeName` is the `long_name` of the first `route` address component
(`none` when no such component exists; a component with a missing
`long_name` yields `some "Unknown Road"`). -/
structure GeoFallbackResp where
  httpStatus : ℤ
  apiStatus : String
  hasResults : Bool
  routeName : Option String
deriving DecidableEq, Repr

/-- The road-information fields of the result record. -/
structure RoadInfo where
  snapped_road_name : String
  snapped_road_type : String
  nearest_road_name : String
  nearest_road_type : String
  place_id : Option String
deriving DecidableEq, Repr

/-- The initial `road_info` dict. -/
def roadInfoInit : RoadInfo := ⟨"Unknown", "Unknown", "Unknown", "Unknown", none⟩

/-- Method 1 of `get_road_info_google_roads` (snap-to-roads + place
details).  Returns the partially updated info, an escaped exception (to be
caught by the outer handler), whether the `place_url` local variable was
assigned (Method 2 reads it and raises `NameError` otherwise), and the
request count. -/
def roadsMethod1 (snap : Except String SnapResp)
    (placeDetails : String → Except String PlaceDetailsResp) :
    RoadInfo × Option String × Bool × ℕ :=
  match snap with
  | .error e => (roadInfoInit, some e, false, 1)
  | .ok sr =>
    if sr.httpStatus = 200 then
      match sr.placeId with
      | none => (roadInfoInit, none, false, 1)
      | some pid =>
        let info1 : RoadInfo := { roadInfoInit with place_id := some pid }
        match placeDetails pid with
        | .error e => (info1, some e, true, 2)
        | .ok pd =>
          if pd.httpStatus = 200 ∧ pd.apiStatus = "OK" then
            let nm := pd.name.getD "Unknown Road"
            let info2 := { info1 with snapped_road_name := nm }
            match classify_road_type pd.types nm with
            | .error e => (info2, some e, true, 2)
            | .ok ty => ({ info2 with snapped_road_type := ty }, none, true, 2)
          else (info1, none, true, 2)
    else (roadInfoInit, none, false, 1)

/-- Method 2 of `get_road_info_google_roads` (nearest-roads), whose inner
`try` catches its own exceptions, including the `NameError` raised when
Method 1 never assigned `place_url`. -/
def roadsMethod2 (nearest : Except String SnapResp)
    (placeDetails : String → Except String PlaceDetailsResp)
    (placeUrlDefined : Bool) (info : RoadInfo) : RoadInfo × List String × ℕ :=
  match nearest with
  | .error e => (info, ["Nearest Roads API error: " ++ e], 1)
  | .ok nr =>
    if nr.httpStatus = 200 then
      match nr.placeId with
      | none => (info, [], 1)
      | some pid =>
        if placeUrlDefined = false then
          (info, ["Nearest Roads API error: name 'place_url' is not defined"], 1)
        else
          match placeDetails pid with
          | .error e => (info, ["Nearest Roads API error: " ++ e], 2)
          | .ok pd =>
            if pd.httpStatus = 200 ∧ pd.apiStatus = "OK" then
              let nm := pd.name.getD "Unknown Road"
              let info1 := { info with nearest_road_name := nm }
              match classify_road_type pd.types nm with
              | .error e => (info1, ["Nearest Roads API error: " ++ e], 2)
              | .ok ty => ({ info1 with nearest_road_type := ty }, [], 2)
            else (info, [], 2)
    else (info, [], 1)

/-- The reverse-geocoding fallback block of `get_road_info_google_roads`,
run when both road names are still `"Unknown"`. -/
def roadsFallback (geoFallback : Except String GeoFallbackResp)
    (info : RoadInfo) : RoadInfo × List String × ℕ :=
  if info.snapped_road_name = "Unknown" ∧ info.nearest_road_name = "Unknown" then
    match geoFallback with
    | .error e => (info, ["Geocoding fallback error: " ++ e], 1)
    | .ok g =>
      if g.httpStatus = 200 then
        if g.apiStatus = "OK" ∧ g.hasResults then
          match g.routeName with
          | none => (info, [], 1)
          | some rn =>
            match classify_road_type_from_name rn with
            | .error e => (info, ["Geocoding fallback error: " ++ e], 1)
            | .ok ty =>
              ({ info with snapped_road_name := rn, snapped_road_type := ty,
                           nearest_road_name := rn, nearest_road_type := ty }, [], 1)
        else (info, [], 1)
      else (info, [], 1)
  else (info, [], 0)

/-- `get_road_info_google_roads` from src/app.py: Method 1 and Method 2
inside an outer `try` (an exception escaping Method 1 skips Method 2 and
is logged by the outer handler), then the geocoding fallback. -/
def get_road_info_google_roads (snap : Except String SnapResp)
    (placeDetails : String → Except String PlaceDetailsResp)
    (nearest : Except String SnapResp)
    (geoFallback : Except String GeoFallbackResp) : AdapterOut RoadInfo :=
  let m1 := roadsMethod1 snap placeDetails
  match m1.2.1 with
  | some e =>
    let fb := roadsFallback geoFallback m1.1
    ⟨fb.1, ["Google Roads API error: " ++ e] ++ fb.2.1, m1.2.2.2 + fb.2.2⟩
  | none =>
    let m2 := roadsMethod2 nearest placeDetails m1.2.2.1 m1.1
    let fb := roadsFallback geoFallback m2.1
    ⟨fb.1, m2.2.1 ++ fb.2.1, m1.2.2.2 + m2.2.2 + fb.2.2⟩

/-! ### The network environment and `process_site` -/

/-- The external world as seen by one `process_site` call: one oracle per
provider request kind, each a function of the coordinate. -/
structure Net where
  transform : ℚ → ℚ → Except String (ℚ × ℚ)
  postcode : ℚ → ℚ → Except String PostcodeResp
  geocode : ℚ → ℚ → Except String (Option GeocodeDetails)
  tomtomKey : Bool
  tomtom : ℚ → ℚ → Except String TomTomResp
  amenity : ℚ → ℚ → String → Except String AmenTypeResp
  evSearch : ℚ → ℚ → Except String (List EVStation)
  snap : ℚ → ℚ → Except String SnapResp
  placeDetails : String → Except String PlaceDetailsResp
  nearest : ℚ → ℚ → Except String SnapResp
  geoFallback : ℚ → ℚ → Except String GeoFallbackResp

/-- The result record of `process_site`, with the fields of the `result`
dict literal typed exactly as the Python values that can inhabit them. -/
structure SiteRecord where
  latitude : ℚ
  longitude : ℚ
  easting : Option ℤ
  northing : Option ℤ
  postcode : String
  ward : String
  district : String
  street : String
  street_number : String
  neighborhood : String
  city : String
  county : String
  region : String
  country : String
  formatted_address : Option String
  fast_chargers : ℤ
  rapid_chargers : ℤ
  ultra_chargers : ℤ
  required_kva : ℚ
  traffic_speed : Option ℚ
  traffic_freeflow : Option ℚ
  traffic_congestion : String
  amenities : String
  snapped_road_name : String
  snapped_road_type : String
  nearest_road_name : String
  nearest_road_type : String
  place_id : Option String
  competitor_ev_count : ℕ
  competitor_ev_names : String
  ev_stations_details : List EVStation
deriving DecidableEq, Repr

/-- `process_site` from src/app.py.  Every adapter call catches its own
exceptions, so the function is total: it returns the merged record, the
concatenated `st.warning` log, and the number of HTTP requests attempted.
(The enclosing `try` of the Python body is consequently dead code in the
model, and the `result` dict defaults are only visible where an adapter
returns its own sentinel.) -/
def process_site (net : Net) (lat lon : ℚ) (fast rapid ultra : ℤ)
    (fast_kw rapid_kw ultra_kw : ℚ) : SiteRecord × List String × ℕ :=
  let grid := convert_to_british_grid net.transform lat lon
  let kva := calculate_kva fast rapid ultra fast_kw rapid_kw ultra_kw
  let pc := get_postcode_info (net.postcode lat lon)
  let geo := get_geocode_details (net.geocode lat lon)
  let traffic := get_tomtom_traffic net.tomtomKey (net.tomtom lat lon)
  let amen := get_nearby_amenities (net.amenity lat lon)
  let evs := get_ev_charging_stations (net.evSearch lat lon)
  let roads := get_road_info_google_roads (net.snap lat lon) net.placeDetails
      (net.nearest lat lon) (net.geoFallback lat lon)
  ({ latitude := lat
     longitude := lon
     easting := grid.1.1
     northing := grid.1.2
     postcode := pc.val.1
     ward := pc.val.2.1
     district := pc.val.2.2
     street := (geo.val.bind GeocodeDetails.street).getD "N/A"
     street_number := (geo.val.bind GeocodeDetails.street_number).getD "N/A"
     neighborhood := (geo.val.bind GeocodeDetails.neighborhood).getD "N/A"
     city := (geo.val.bind GeocodeDetails.city).getD "N/A"
     county := (geo.val.bind GeocodeDetails.county).getD "N/A"
     region := (geo.val.bind GeocodeDetails.region).getD "N/A"
     country := (geo.val.bind GeocodeDetails.country).getD "N/A"
     formatted_address :=
       match geo.val with
       | none => some "N/A"
       | some d => d.formatted_address
     fast_chargers := fast
     rapid_chargers := rapid
     ultra_chargers := ultra
     required_kva := kva
     traffic_speed := traffic.1.speed
     traffic_freeflow := traffic.1.freeFlow
     traffic_congestion := traffic.1.congestion
     amenities := amen.val
     snapped_road_name := roads.val.snapped_road_name
     snapped_road_type := roads.val.snapped_road_type
     nearest_road_name := roads.val.nearest_road_name
     nearest_road_type := roads.val.nearest_road_type
     place_id := roads.val.place_id
     competitor_ev_count := evs.val.length
     competitor_ev_names :=
       if evs.val = [] then "None"
       else String.intercalate "; " (evs.val.map EVStation.name)
     ev_stations_details := evs.val },
   grid.2 ++ pc.warnings ++ geo.warnings ++ traffic.2.1 ++ amen.warnings ++
     evs.warnings ++ roads.warnings,
   pc.calls + geo.calls + traffic.2.2 + amen.calls + evs.calls + roads.calls)

/-! ### The single-site Analyze button handler -/

/-- Outcome of the single-site Analyze button handler. -/
inductive AnalyzeOutcome where
  | formatError
  | boundsError
  | analyzed (site : SiteRecord)
deriving Repr

/-- The single-site Analyze button handler from src/app.py: parse the two
text inputs (`none` models `float(...)` raising `ValueError`), reject
out-of-bounds coordinates with an error before any processing, otherwise
run `process_site`.  The second component counts HTTP requests made. -/
def analyze_single_site (net : Net) (latP lonP : Option ℚ)
    (fast rapid ultra : ℤ) (fast_kw rapid_kw ultra_kw : ℚ) :
    AnalyzeOutcome × ℕ :=
  match latP, lonP with
  | some la, some lo =>
    if ¬(-90 ≤ la ∧ la ≤ 90) ∨ ¬(-180 ≤ lo ∧ lo ≤ 180) then (.boundsError, 0)
    else
      let r := process_site net la lo fast rapid ultra fast_kw rapid_kw ultra_kw
      (.analyzed r.1, r.2.2)
  | _, _ => (.formatError, 0)

/-! ### The batch processing loop -/

/-- One uploaded CSV row: the combined outcome of
`float(row["latitude"])`, `float(row["longitude"])` and the three
`int(row.get(...))` conversions (`.error` carries `str(e)`), plus the raw
`row.get("latitude")` / `row.get("longitude")` cell values used in the
error record. -/
structure BatchRow where
  parsed : Except String (ℚ × ℚ × ℤ × ℤ × ℤ)
  rawLat : Option ℚ
  rawLon : Option ℚ

/-- One element of the batch `results` list: a processed site, or the
in-place error record appended when the row failed. -/
inductive BatchOutcome where
  | ok (site : SiteRecord)
  | rowError (lat lon : Option ℚ) (err : String)

/-- The body of one iteration of the Process All Sites loop. -/
def processRow (net : Net) (fast_kw rapid_kw ultra_kw : ℚ) (row : BatchRow) :
    BatchOutcome :=
  match row.parsed with
  | .error e => .rowError row.rawLat row.rawLon e
  | .ok q =>
    .ok (process_site net q.1 q.2.1 q.2.2.1 q.2.2.2.1 q.2.2.2.2
          fast_kw rapid_kw ultra_kw).1

/-- The Process All Sites loop from src/app.py: `results = []` followed by
one `results.append(...)` per row (the appended element being the error
record when the row raised). -/
def processBatch (net : Net) (fast_kw rapid_kw ultra_kw : ℚ)
    (rows : List BatchRow) : List BatchOutcome :=
  rows.foldl (fun acc row => acc ++ [processRow net fast_kw rapid_kw ultra_kw row]) []

/-! ### The `st.cache_data` memoisation of the lookup adapters -/

/-- Association-list lookup keyed by the exact coordinate pair, modelling
the `st.cache_data` argument-keyed cache. -/
def cacheLookup {α : Type} : List ((ℚ × ℚ) × α) → ℚ → ℚ → Option α
  | [], _, _ => none
  | (k, v) :: rest, la, lo => if k = (la, lo) then some v else cacheLookup rest la lo

/-- `@st.cache_data` applied to a per-coordinate provider `f`: on a cache
hit return the stored value without running `f`; on a miss run `f`, store
and return it.  The Boolean reports whether the underlying provider (and
hence its network call) ran. -/
def cachedProvider {α : Type} (f : ℚ → ℚ → α) (c : List ((ℚ × ℚ) × α))
    (la lo : ℚ) : α × List ((ℚ × ℚ) × α) × Bool :=
  match cacheLookup c la lo with
  | some v => (v, c, false)
  | none => (f la lo, ((la, lo), f la lo) :: c, true)

/-- The cached `get_postcode_info` provider (`@st.cache_data` in src/app.py). -/
def get_postcode_info_cached (net : Net)
    (c : List ((ℚ × ℚ) × (String × String × String))) (la lo : ℚ) :
    (String × String × String) × List ((ℚ × ℚ) × (String × String × String)) × Bool :=
  cachedProvider (fun a b => (get_postcode_info (net.postcode a b)).val) c la lo

/-- The cached `get_geocode_details` provider (`@st.cache_data` in src/app.py). -/
def get_geocode_details_cached (net : Net)
    (c : List ((ℚ × ℚ) × Option GeocodeDetails)) (la lo : ℚ) :
    Option GeocodeDetails × List ((ℚ × ℚ) × Option GeocodeDetails) × Bool :=
  cachedProvider (fun a b => (get_geocode_details (net.geocode a b)).val) c la lo

/-- The cached `get_ev_charging_stations` provider (`@st.cache_data` in
src/app.py).  The cache key also covers the radius argument, but
`process_site` always calls with the default 1000, so for the pipeline's
calls the key reduces to the coordinate pair. -/
def get_ev_charging_stations_cached (net : Net)
    (c : List ((ℚ × ℚ) × List EVStation)) (la lo : ℚ) :
    List EVStation × List ((ℚ × ℚ) × List EVStation) × Bool :=
  cachedProvider (fun a b => (get_ev_charging_stations (net.evSearch a b)).val) c la lo

/-- The cached `get_nearby_amenities` provider (`@st.cache_data` in
src/app.py); `process_site` always calls with the default radius 500, so
the key reduces to the coordinate pair. -/
def get_nearby_amenities_cached (net : Net)
    (c : List ((ℚ × ℚ) × String)) (la lo : ℚ) :
    String × List ((ℚ × ℚ) × String) × Bool :=
  cachedProvider (fun a b => (get_nearby_amenities (net.amenity a b)).val) c la lo

/-- The cached `get_road_info_google_roads` provider (`@st.cache_data` in
src/app.py). -/
def get_road_info_google_roads_cached (net : Net)
    (c : List ((ℚ × ℚ) × RoadInfo)) (la lo : ℚ) :
    RoadInfo × List ((ℚ × ℚ) × RoadInfo) × Bool :=
  cachedProvider
    (fun a b => (get_road_info_google_roads (net.snap a b) net.placeDetails
        (net.nearest a b) (net.geoFallback a b)).val) c la lo

/-! ### Serialisation of the result record (key set) -/

/-- A Python value stored in the `result` dict. -/
inductive PyVal where
  | pynone
  | str (s : String)
  | num (q : ℚ)
  | int (n : ℤ)
  | nat (n : ℕ)
  | stations (l : List EVStation)
deriving Repr

/-- Python `None`-or-int as a dict value. -/
def pvOptInt : Option ℤ → PyVal
  | none => .pynone
  | some n => .int n

/-- Python `None`-or-string as a dict value. -/
def pvOptStr : Option String → PyVal
  | none => .pynone
  | some s => .str s

/-- Python `None`-or-float as a dict value. -/
def pvOptRat : Option ℚ → PyVal
  | none => .pynone
  | some q => .num q

/-- The `result` dict of `process_site` as an ordered key-value list, in
the order of the dict literal in src/app.py. -/
def toPairs (r : SiteRecord) : List (String × PyVal) :=
  [("latitude", .num r.latitude), ("longitude", .num r.longitude),
   ("easting", pvOptInt r.easting), ("northing", pvOptInt r.northing),
   ("postcode", .str r.postcode), ("ward", .str r.ward),
   ("district", .str r.district), ("street", .str r.street),
   ("street_number", .str r.street_number),
   ("neighborhood", .str r.neighborhood), ("city", .str r.city),
   ("county", .str r.county), ("region", .str r.region),
   ("country", .str r.country),
   ("formatted_address", pvOptStr r.formatted_address),
   ("fast_chargers", .int r.fast_chargers),
   ("rapid_chargers", .int r.rapid_chargers),
   ("ultra_chargers", .int r.ultra_chargers),
   ("required_kva", .num r.required_kva),
   ("traffic_speed", pvOptRat r.traffic_speed),
   ("traffic_freeflow", pvOptRat r.traffic_freeflow),
   ("traffic_congestion", .str r.traffic_congestion),
   ("amenities", .str r.amenities),
   ("snapped_road_name", .str r.snapped_road_name),
   ("snapped_road_type", .str r.snapped_road_type),
   ("nearest_road_name", .str r.nearest_road_name),
   ("nearest_road_type", .str r.nearest_road_type),
   ("place_id", pvOptStr r.place_id),
   ("competitor_ev_count", .nat r.competitor_ev_count),
   ("competitor_ev_names", .str r.competitor_ev_names),
   ("ev_stations_details", .stations r.ev_stations_details)]

/-- The fixed key set of the `result` dict, in literal order. -/
def siteRecordKeys : List String :=
  ["latitude", "longitude", "easting", "northing", "postcode", "ward",
   "district", "street", "street_number", "neighborhood", "city", "county",
   "region", "country", "formatted_address", "fast_chargers",
   "rapid_chargers", "ultra_chargers", "required_kva", "traffic_speed",
   "traffic_freeflow", "traffic_congestion", "amenities",
   "snapped_road_name", "snapped_road_type", "nearest_road_name",
   "nearest_road_type", "place_id", "competitor_ev_count",
   "competitor_ev_names", "ev_stations_details"]

/-! ### Classification predicates used in the road-type theorems -/

/-- The Motorway keyword test of `classify_road_type_from_name` on the
lowercased name. -/
def motorKeywordHit (name : String) : Bool :=
  motorwayKeys.any (fun k => strContains (name.toList.map Char.toLower) k)

/-- The exact inputs on which `classify_road_type_from_name` raises
`IndexError`: a non-sentinel name with no Motorway keyword whose first
character lowers to `a` or `b` and whose remainder is nonempty but all
whitespace. -/
def nameCrashes (name : String) : Prop :=
  name ≠ "" ∧ name ≠ "Unknown Road" ∧ motorKeywordHit name = false ∧
  ((name.toList.map Char.toLower).take 1 = ['a'] ∨
   (name.toList.map Char.toLower).take 1 = ['b']) ∧
  1 < name.toList.length ∧ pysplitWs (name.toList.drop 1) = []

instance : DecidablePred nameCrashes := fun n => by
  unfold nameCrashes; infer_instance

/-- A road name matching none of the name patterns of
`classify_road_type_from_name`. -/
def noNamePattern (name : String) : Prop :=
  motorKeywordHit name = false ∧
  (name.toList.map Char.toLower).take 1 ≠ ['a'] ∧
  (name.toList.map Char.toLower).take 1 ≠ ['b'] ∧
  ∀ k ∈ dualKeys ++ localKeys ++ roundaboutKeys,
    strContains (name.toList.map Char.toLower) k = false

instance : DecidablePred noNamePattern := fun n => by
  unfold noNamePattern; infer_instance

/-! ### A concrete environment in which every provider request fails -/

/-- A network in which every HTTP request raises and the coordinate
transform fails, used as the concrete environment of the witnesses and
counterexamples. -/
def allFailNet : Net where
  transform := fun _ _ => .error "proj failure"
  postcode := fun _ _ => .error "postcode down"
  geocode := fun _ _ => .error "geocode down"
  tomtomKey := true
  tomtom := fun _ _ => .error "tomtom down"
  amenity := fun _ _ _ => .error "places down"
  evSearch := fun _ _ => .error "ev search down"
  snap := fun _ _ => .error "roads down"
  placeDetails := fun _ => .error "details down"
  nearest := fun _ _ => .error "nearest down"
  geoFallback := fun _ _ => .error "fallback down"

/-! ## Theorems -/

/-- C1 counterexample: on the example configuration fast=2, rapid=1,
ultra=1 with ratings 22/60/150 the code computes 310.44 (it applies a
1.1 overhead factor), not the 282.22 the specification states. -/
theorem calculate_kva_example_ne_spec_value :
    calculate_kva 2 1 1 22 60 150 = 310.44 ∧
    required_kva_spec 2 1 1 22 60 150 = 282.22 ∧
    calculate_kva 2 1 1 22 60 150 ≠ required_kva_spec 2 1 1 22 60 150 := by
  have h1 : calculate_kva 2 1 1 22 60 150 = 310.44 := by
    norm_num [calculate_kva, round2, round_eq]
  have h2 : required_kva_spec 2 1 1 22 60 150 = 282.22 := by
    norm_num [required_kva_spec, round2, round_eq]
  refine ⟨h1, h2, ?_⟩
  rw [h1, h2]
  norm_num

/-- C1 (amended): for every valid charger configuration the computed
required capacity equals `round(total_kw / 0.9 * 1.1, 2)` — the power
factor 0.9 division plus the code's 10% overhead factor — and the example
configuration yields 310.44. -/
theorem calculate_kva_formula_with_overhead :
    (∀ (f r u : ℤ) (fkw rkw ukw : ℚ), 0 ≤ f → 0 ≤ r → 0 ≤ u →
        0 < fkw → 0 < rkw → 0 < ukw →
        calculate_kva f r u fkw rkw ukw =
          round2 (((f : ℚ) * fkw + (r : ℚ) * rkw + (u : ℚ) * ukw) / 0.9 * 1.1)) ∧
    calculate_kva 2 1 1 22 60 150 = 310.44 := by
  constructor
  · intro f r u fkw rkw ukw h1 h2 h3 h4 h5 h6
    rfl
  · norm_num [calculate_kva, round2, round_eq]

/-- C1 witness: the amended formula evaluated at the example configuration. -/
theorem calculate_kva_formula_with_overhead_witness :
    calculate_kva 2 1 1 22 60 150 =
      round2 ((((2 : ℤ) : ℚ) * 22 + ((1 : ℤ) : ℚ) * 60 + ((1 : ℤ) : ℚ) * 150) / 0.9 * 1.1) :=
  calculate_kva_formula_with_overhead.1 2 1 1 22 60 150 (by norm_num) (by norm_num)
    (by norm_num) (by norm_num) (by norm_num) (by norm_num)

/-- C7: if the coordinate transformation fails, `convert_to_british_grid`
returns `(None, None)` with the reason logged, and on success it returns
the rounded pair — in both cases it returns normally (the embedded
function is total, mirroring the catch-all `except`). -/
theorem convert_to_british_grid_failure_yields_none :
    (∀ (t : ℚ → ℚ → Except String (ℚ × ℚ)) (la lo : ℚ) (e : String),
        t la lo = .error e →
        convert_to_british_grid t la lo =
          ((none, none), ["Coordinate transformation error: " ++ e])) ∧
    (∀ (t : ℚ → ℚ → Except String (ℚ × ℚ)) (la lo : ℚ) (p : ℚ × ℚ),
        t la lo = .ok p →
        convert_to_british_grid t la lo =
          ((some (round p.1), some (round p.2)), [])) := by
  constructor <;> intro t la lo x h <;> simp [convert_to_british_grid, h]

/-- C7 witness: a transformer that fails on the given input. -/
theorem convert_to_british_grid_failure_yields_none_witness :
    convert_to_british_grid (fun _ _ => .error "latitude out of domain") 91 0 =
      ((none, none), ["Coordinate transformation error: latitude out of domain"]) :=
  convert_to_british_grid_failure_yields_none.1
    (fun _ _ => .error "latitude out of domain") 91 0 "latitude out of domain" rfl

/-! ### Road classification lemmas (C4) -/

lemma except_bind_ok {ε α β : Type} (a : α) (f : α → Except ε β) :
    (Except.ok a : Except ε α) >>= f = f a := rfl

lemma classify_nil_tags (name : String) :
    classify_road_type [] name = classify_road_type_from_name name := rfl

lemma from_name_motorway (name : String) (h : motorKeywordHit name = true) :
    classify_road_type_from_name name = .ok "Motorway" := by
  have h0 : ¬(name = "" ∨ name = "Unknown Road") := by
    rintro (h0 | h0) <;> subst h0 <;> exact absurd h (by decide)
  unfold classify_road_type_from_name
  rw [if_neg h0]
  unfold motorKeywordHit at h
  rw [List.any_eq_true] at h
  simp only [String.toList] at h
  simp [h]
  rfl

lemma from_name_local (name : String) (hnp : noNamePattern name) :
    classify_road_type_from_name name = .ok "Local Road" := by
  obtain ⟨hm, ha, hb, hk⟩ := hnp
  by_cases h0 : name = "" ∨ name = "Unknown Road"
  · unfold classify_road_type_from_name
    rw [if_pos h0]
    rfl
  · unfold classify_road_type_from_name
    rw [if_neg h0]
    unfold motorKeywordHit at hm
    have hda : letterDigitCond 'a' name.toList (List.map Char.toLower name.toList) = .ok false := by
      unfold letterDigitCond
      rw [if_neg]
      rintro ⟨hc, _⟩
      exact ha hc
    have hdb : letterDigitCond 'b' name.toList (List.map Char.toLower name.toList) = .ok false := by
      unfold letterDigitCond
      rw [if_neg]
      rintro ⟨hc, _⟩
      exact hb hc
    have hd : (dualKeys.any fun k => strContains (List.map Char.toLower name.toList) k) = false := by
      rw [List.any_eq_false]
      intro x hx
      have h5 := hk x (by simp [hx])
      simp only [String.toList] at h5
      simp [h5]
    have hl : (localKeys.any fun k => strContains (List.map Char.toLower name.toList) k) = false := by
      rw [List.any_eq_false]
      intro x hx
      have h5 := hk x (by simp [hx])
      simp only [String.toList] at h5
      simp [h5]
    have hr : (roundaboutKeys.any fun k => strContains (List.map Char.toLower name.toList) k) = false := by
      rw [List.any_eq_false]
      intro x hx
      have h5 := hk x (by simp [hx])
      simp only [String.toList] at h5
      simp [h5]
    simp only [String.toList] at hm hda hdb hd hl hr
    simp [hm, hda, hdb, hd, hl, hr, except_bind_ok]
    rfl

lemma from_name_total (name : String) (h : ¬ nameCrashes name) :
    ∃ v, classify_road_type_from_name name = .ok v := by
  by_cases h0 : name = "" ∨ name = "Unknown Road"
  · exact ⟨"Local Road", by unfold classify_road_type_from_name; rw [if_pos h0]; rfl⟩
  · by_cases hm : motorKeywordHit name = true
    · exact ⟨"Motorway", from_name_motorway name hm⟩
    · have hm2 : motorKeywordHit name = false := by
        cases hmb : motorKeywordHit name
        · rfl
        · exact absurd hmb hm
      have hm3 : (motorwayKeys.any fun k => strContains (List.map Char.toLower name.toList) k) = false := hm2
      have hne1 : name ≠ "" := fun hc => h0 (Or.inl hc)
      have hne2 : name ≠ "Unknown Road" := fun hc => h0 (Or.inr hc)
      unfold classify_road_type_from_name
      rw [if_neg h0]
      by_cases hA : List.take 1 (List.map Char.toLower name.toList) = ['a'] ∧ 1 < name.toList.length
      · cases hsp : pysplitWs (name.toList.drop 1) with
        | nil =>
          exact absurd ⟨hne1, hne2, hm2, Or.inl hA.1, hA.2, hsp⟩ h
        | cons w ws =>
          have hda : letterDigitCond 'a' name.toList (List.map Char.toLower name.toList) =
              .ok (w.all Char.isDigit) := by
            unfold letterDigitCond
            rw [if_pos hA, hsp]
          cases hdig : w.all Char.isDigit with
          | true =>
            rw [hdig] at hda
            simp only [String.toList] at hm3 hda
            exact ⟨"A Road", by simp [hm3, hda, except_bind_ok]; rfl⟩
          | false =>
            have hB : ¬(List.take 1 (List.map Char.toLower name.toList) = ['b'] ∧
                1 < name.toList.length) := by
              rintro ⟨hc, _⟩
              rw [hA.1] at hc
              exact absurd hc (by decide)
            have hdb : letterDigitCond 'b' name.toList (List.map Char.toLower name.toList) =
                .ok false := by
              unfold letterDigitCond
              rw [if_neg hB]
            rw [hdig] at hda
            simp only [String.toList] at hm3 hda hdb
            simp [hm3, hda, hdb, except_bind_ok]
            split_ifs <;> exact ⟨_, rfl⟩
      · have hda : letterDigitCond 'a' name.toList (List.map Char.toLower name.toList) =
            .ok false := by
          unfold letterDigitCond
          rw [if_neg hA]
        by_cases hB : List.take 1 (List.map Char.toLower name.toList) = ['b'] ∧
            1 < name.toList.length
        · cases hsp : pysplitWs (name.toList.drop 1) with
          | nil =>
            exact absurd ⟨hne1, hne2, hm2, Or.inr hB.1, hB.2, hsp⟩ h
          | cons w ws =>
            have hdb : letterDigitCond 'b' name.toList (List.map Char.toLower name.toList) =
                .ok (w.all Char.isDigit) := by
              unfold letterDigitCond
              rw [if_pos hB, hsp]
            cases hdig : w.all Char.isDigit with
            | true =>
              rw [hdig] at hdb
              simp only [String.toList] at hm3 hda hdb
              exact ⟨"B Road", by simp [hm3, hda, hdb, except_bind_ok]; rfl⟩
            | false =>
              rw [hdig] at hdb
              simp only [String.toList] at hm3 hda hdb
              simp [hm3, hda, hdb, except_bind_ok]
              split_ifs <;> exact ⟨_, rfl⟩
        · have hdb : letterDigitCond 'b' name.toList (List.map Char.toLower name.toList) =
              .ok false := by
            unfold letterDigitCond
            rw [if_neg hB]
          simp only [String.toList] at hm3 hda hdb
          simp [hm3, hda, hdb, except_bind_ok]
          split_ifs <;> exact ⟨_, rfl⟩

/-- C4 counterexample: with an empty tag set, the name `M7` — which
matches the claimed pattern `^[Mm]\d+` — classifies as `Local Road`, not
Motorway (the code only substring-matches the fixed keywords m1–m6 and
m25); and on the name `A ` the classification raises `IndexError` instead
of returning a taxonomy value, so it is not total. -/
theorem classify_road_type_m7_and_crash :
    classify_road_type [] "M7" = .ok "Local Road" ∧
    classify_road_type [] "A " = .error "list index out of range" := ⟨rfl, rfl⟩

/-- C4 (amended): `classify_road_type` is a pure function (hence
deterministic) and total except on names that start with `a`/`b`
(case-insensitively) followed only by whitespace, where it raises
`IndexError`; with an empty tag set, a name containing one of the
substrings motorway, m1, m2, m3, m4, m5, m6, m25 (case-insensitively)
classifies as Motorway — so `^[Mm]\d+` names outside that list, such as
M7, do not — and a name matching none of the name patterns classifies as
the fallback value `Local Road`. -/
theorem classify_road_type_amended_spec :
    (∀ name : String, ¬ nameCrashes name → ∃ v, classify_road_type [] name = .ok v) ∧
    (∀ name : String, motorKeywordHit name = true →
        classify_road_type [] name = .ok "Motorway") ∧
    (∀ name : String, noNamePattern name → classify_road_type [] name = .ok "Local Road") := by
  refine ⟨fun name h => ?_, fun name h => ?_, fun name h => ?_⟩
  · rw [classify_nil_tags]
    exact from_name_total name h
  · rw [classify_nil_tags]
    exact from_name_motorway name h
  · rw [classify_nil_tags]
    exact from_name_local name h

/-- C4 witness: the amended classification evaluated on concrete names. -/
theorem classify_road_type_amended_spec_witness :
    classify_road_type [] "M25" = .ok "Motorway" ∧
    classify_road_type [] "Zzq Plaza" = .ok "Local Road" ∧
    (∃ v, classify_road_type [] "A40" = .ok v) :=
  ⟨classify_road_type_amended_spec.2.1 "M25" (by decide),
   classify_road_type_amended_spec.2.2 "Zzq Plaza" (by decide),
   classify_road_type_amended_spec.1 "A40" (by decide)⟩

/-- C2: if every provider request raises, `process_site` still returns a
record (it is total — nothing propagates) whose `required_kva` is the
locally computed `calculate_kva` value, with every provider-derived field
at its unavailable sentinel, the failure reasons retained in the warning
log (and, for amenities, in the field itself). -/
theorem process_site_all_providers_fail :
    ∀ (net : Net) (la lo : ℚ) (f r u : ℤ) (fkw rkw ukw : ℚ)
      (rt rp rg rtt ra re rs rf : String),
      -90 ≤ la → la ≤ 90 → -180 ≤ lo → lo ≤ 180 →
      net.transform la lo = .error rt →
      net.postcode la lo = .error rp →
      net.geocode la lo = .error rg →
      net.tomtomKey = true →
      net.tomtom la lo = .error rtt →
      (∀ pt, net.amenity la lo pt = .error ra) →
      net.evSearch la lo = .error re →
      net.snap la lo = .error rs →
      net.geoFallback la lo = .error rf →
      process_site net la lo f r u fkw rkw ukw =
        ({ latitude := la, longitude := lo, easting := none, northing := none,
           postcode := "N/A", ward := "N/A", district := "N/A",
           street := "N/A", street_number := "N/A", neighborhood := "N/A",
           city := "N/A", county := "N/A", region := "N/A", country := "N/A",
           formatted_address := some "N/A",
           fast_chargers := f, rapid_chargers := r, ultra_chargers := u,
           required_kva := calculate_kva f r u fkw rkw ukw,
           traffic_speed := none, traffic_freeflow := none,
           traffic_congestion := "N/A",
           amenities := "Error retrieving amenities: " ++ ra,
           snapped_road_name := "Unknown", snapped_road_type := "Unknown",
           nearest_road_name := "Unknown", nearest_road_type := "Unknown",
           place_id := none, competitor_ev_count := 0,
           competitor_ev_names := "None", ev_stations_details := [] },
         ["Coordinate transformation error: " ++ rt,
          "Postcode API error: " ++ rp,
          "Geocoding API error: " ++ rg,
          "TomTom API error: " ++ rtt,
          "Places API error: " ++ ra,
          "Error searching for EV stations: " ++ re,
          "Google Roads API error: " ++ rs,
          "Geocoding fallback error: " ++ rf], 7) := by
  intro net la lo f r u fkw rkw ukw rt rp rg rtt ra re rs rf
  intro hla1 hla2 hlo1 hlo2 ht hp hg hkey htt ham hev hs hf
  simp [process_site, convert_to_british_grid, ht, get_postcode_info, hp,
    get_geocode_details, hg, get_tomtom_traffic, hkey, htt,
    get_nearby_amenities, placeTypes, amenLoop, ham,
    get_ev_charging_stations, hev, get_road_info_google_roads,
    roadsMethod1, roadsFallback, roadInfoInit, hs, hf]

/-- C2 witness: `process_site` on the all-failing network at an in-bounds
coordinate. -/
theorem process_site_all_providers_fail_witness :
    process_site allFailNet 51.5 (-0.13) 2 1 1 22 60 150 =
      ({ latitude := 51.5, longitude := -0.13, easting := none, northing := none,
         postcode := "N/A", ward := "N/A", district := "N/A",
         street := "N/A", street_number := "N/A", neighborhood := "N/A",
         city := "N/A", county := "N/A", region := "N/A", country := "N/A",
         formatted_address := some "N/A",
         fast_chargers := 2, rapid_chargers := 1, ultra_chargers := 1,
         required_kva := calculate_kva 2 1 1 22 60 150,
         traffic_speed := none, traffic_freeflow := none,
         traffic_congestion := "N/A",
         amenities := "Error retrieving amenities: places down",
         snapped_road_name := "Unknown", snapped_road_type := "Unknown",
         nearest_road_name := "Unknown", nearest_road_type := "Unknown",
         place_id := none, competitor_ev_count := 0,
         competitor_ev_names := "None", ev_stations_details := [] },
       ["Coordinate transformation error: proj failure",
        "Postcode API error: postcode down",
        "Geocoding API error: geocode down",
        "TomTom API error: tomtom down",
        "Places API error: places down",
        "Error searching for EV stations: ev search down",
        "Google Roads API error: roads down",
        "Geocoding fallback error: fallback down"], 7) :=
  process_site_all_providers_fail allFailNet 51.5 (-0.13) 2 1 1 22 60 150
    "proj failure" "postcode down" "geocode down" "tomtom down" "places down"
    "ev search down" "roads down" "fallback down"
    (by norm_num) (by norm_num) (by norm_num) (by norm_num)
    rfl rfl rfl rfl rfl (fun _ => rfl) rfl rfl rfl

/-- C3 counterexample: called directly with the out-of-bounds latitude 91
(as the batch loop does), `process_site` does not raise a validation
error: it returns a record and performs 7 network requests, not zero. -/
theorem process_site_out_of_bounds_performs_calls :
    (process_site allFailNet 91 0 1 0 0 22 60 150).2.2 = 7 ∧
    (process_site allFailNet 91 0 1 0 0 22 60 150).1.latitude = 91 := ⟨rfl, rfl⟩

/-- C3 (amended): coordinate bounds are enforced only by the single-site
Analyze button handler, which rejects an out-of-bounds coordinate with a
validation error before `process_site` is invoked, performing zero
network requests; `process_site` itself performs no validation. -/
theorem analyze_handler_rejects_out_of_bounds :
    ∀ (net : Net) (la lo : ℚ) (f r u : ℤ) (fkw rkw ukw : ℚ),
      (la < -90 ∨ 90 < la ∨ lo < -180 ∨ 180 < lo) →
      analyze_single_site net (some la) (some lo) f r u fkw rkw ukw =
        (.boundsError, 0) := by
  intro net la lo f r u fkw rkw ukw h
  have hc : ¬(-90 ≤ la ∧ la ≤ 90) ∨ ¬(-180 ≤ lo ∧ lo ≤ 180) := by
    rcases h with h | h | h | h
    · exact Or.inl (fun hx => absurd hx.1 (by linarith))
    · exact Or.inl (fun hx => absurd hx.2 (by linarith))
    · exact Or.inr (fun hx => absurd hx.1 (by linarith))
    · exact Or.inr (fun hx => absurd hx.2 (by linarith))
  simp only [analyze_single_site]
  rw [if_pos hc]

/-- C3 witness: the handler at latitude 91. -/
theorem analyze_handler_rejects_out_of_bounds_witness :
    analyze_single_site allFailNet (some 91) (some 0) 1 0 0 22 60 150 =
      (.boundsError, 0) :=
  analyze_handler_rejects_out_of_bounds allFailNet 91 0 1 0 0 22 60 150
    (Or.inr (Or.inl (by norm_num)))

/-- C6 counterexample: with the negative fast-charger count -1,
`process_site` does not raise a validation error — it returns a record
whose `required_kva` is the (negative) value -26.89 computed from the
negative count. -/
theorem process_site_negative_count_no_error :
    (process_site allFailNet 51.5 0 (-1) 0 0 22 60 150).1.required_kva = -26.89 ∧
    (process_site allFailNet 51.5 0 (-1) 0 0 22 60 150).1.fast_chargers = -1 := by
  constructor
  · show calculate_kva (-1) 0 0 22 60 150 = -26.89
    norm_num [calculate_kva, round2, round_eq]
  · rfl

/-- C6 (amended): `process_site` performs no charger-count validation: for
any configuration containing a negative count it still returns a record
whose `required_kva` is `calculate_kva` of the given (negative) counts and
whose charger fields echo them. -/
theorem process_site_accepts_negative_counts :
    ∀ (net : Net) (la lo : ℚ) (f r u : ℤ) (fkw rkw ukw : ℚ),
      f < 0 ∨ r < 0 ∨ u < 0 →
      (process_site net la lo f r u fkw rkw ukw).1.required_kva =
          calculate_kva f r u fkw rkw ukw ∧
      (process_site net la lo f r u fkw rkw ukw).1.fast_chargers = f ∧
      (process_site net la lo f r u fkw rkw ukw).1.rapid_chargers = r ∧
      (process_site net la lo f r u fkw rkw ukw).1.ultra_chargers = u := by
  intro net la lo f r u fkw rkw ukw h
  exact ⟨rfl, rfl, rfl, rfl⟩

/-- C6 witness: the amended statement at the concrete configuration
(-1, 0, 0). -/
theorem process_site_accepts_negative_counts_witness :
    (process_site allFailNet 51.5 0 (-1) 0 0 22 60 150).1.required_kva =
        calculate_kva (-1) 0 0 22 60 150 ∧
    (process_site allFailNet 51.5 0 (-1) 0 0 22 60 150).1.fast_chargers = -1 ∧
    (process_site allFailNet 51.5 0 (-1) 0 0 22 60 150).1.rapid_chargers = 0 ∧
    (process_site allFailNet 51.5 0 (-1) 0 0 22 60 150).1.ultra_chargers = 0 :=
  process_site_accepts_negative_counts allFailNet 51.5 0 (-1) 0 0 22 60 150
    (Or.inl (by norm_num))

/-! ### Batch loop lemmas (C5) -/

lemma foldl_append_singleton {α β : Type} (g : α → β) :
    ∀ (rows : List α) (acc : List β),
      rows.foldl (fun a row => a ++ [g row]) acc = acc ++ rows.map g := by
  intro rows
  induction rows with
  | nil => intro acc; simp
  | cons rr rs ih =>
    intro acc
    simp [List.foldl, ih, List.append_assoc]

lemma processBatch_eq_map (net : Net) (fkw rkw ukw : ℚ) (rows : List BatchRow) :
    processBatch net fkw rkw ukw rows = rows.map (processRow net fkw rkw ukw) := by
  simpa using foldl_append_singleton (processRow net fkw rkw ukw) rows []

/-- C5: the batch loop appends exactly one outcome per input row (failed
rows are represented in place by an error record), so the output length
equals the input length and the element at every index is the processed
form of the input row at that index. -/
theorem processBatch_preserves_length_and_order :
    ∀ (net : Net) (fkw rkw ukw : ℚ) (rows : List BatchRow),
      (processBatch net fkw rkw ukw rows).length = rows.length ∧
      ∀ i : ℕ, (processBatch net fkw rkw ukw rows)[i]? =
          (rows[i]?).map (processRow net fkw rkw ukw) := by
  intro net fkw rkw ukw rows
  rw [processBatch_eq_map]
  exact ⟨List.length_map rows (processRow net fkw rkw ukw),
    fun i => List.getElem?_map (processRow net fkw rkw ukw) rows i⟩

/-! ### Cache lemmas (C8) -/

lemma cachedProvider_idem {α : Type} (g : ℚ → ℚ → α)
    (c : List ((ℚ × ℚ) × α)) (la lo : ℚ) :
    (cachedProvider g (cachedProvider g c la lo).2.1 la lo).1 =
        (cachedProvider g c la lo).1 ∧
    (cachedProvider g (cachedProvider g c la lo).2.1 la lo).2.2 = false := by
  unfold cachedProvider
  cases h : cacheLookup c la lo with
  | some v => simp [h]
  | none => simp [h, cacheLookup]

/-- C8 counterexample: the TomTom traffic adapter is the one lookup
without `@st.cache_data`: while a second identical postcode lookup is
served from the cache without running the provider (the ran-Boolean is
`false`), a repeated TomTom invocation at the identical coordinate — as a
second `process()` call performs it — attempts its HTTP request again
(request count 1, not 0), so the claim fails for that provider. -/
theorem tomtom_traffic_not_cached :
    (get_postcode_info_cached allFailNet
        (get_postcode_info_cached allFailNet [] 51.5 0).2.1 51.5 0).2.2 = false ∧
    (get_tomtom_traffic allFailNet.tomtomKey (allFailNet.tomtom 51.5 0)).2.2 = 1 := by
  constructor
  · exact (cachedProvider_idem _ [] 51.5 0).2
  · rfl

/-- C8 (amended): each of the five `@st.cache_data`-decorated providers —
postcode, geocode, EV stations, amenities, road info — returns, on a
second call with the identical coordinate key, the same cached value
without running the underlying provider (no second network call),
whatever the prior cache contents; the TomTom traffic adapter carries no
cache and attempts one HTTP request on every invocation whenever a key is
configured. -/
theorem cached_providers_second_call_hits_cache :
    (∀ (net : Net) (c : List ((ℚ × ℚ) × (String × String × String))) (la lo : ℚ),
      (get_postcode_info_cached net (get_postcode_info_cached net c la lo).2.1 la lo).1 =
          (get_postcode_info_cached net c la lo).1 ∧
      (get_postcode_info_cached net (get_postcode_info_cached net c la lo).2.1 la lo).2.2 =
          false) ∧
    (∀ (net : Net) (c : List ((ℚ × ℚ) × Option GeocodeDetails)) (la lo : ℚ),
      (get_geocode_details_cached net (get_geocode_details_cached net c la lo).2.1 la lo).1 =
          (get_geocode_details_cached net c la lo).1 ∧
      (get_geocode_details_cached net (get_geocode_details_cached net c la lo).2.1 la lo).2.2 =
          false) ∧
    (∀ (net : Net) (c : List ((ℚ × ℚ) × List EVStation)) (la lo : ℚ),
      (get_ev_charging_stations_cached net
          (get_ev_charging_stations_cached net c la lo).2.1 la lo).1 =
          (get_ev_charging_stations_cached net c la lo).1 ∧
      (get_ev_charging_stations_cached net
          (get_ev_charging_stations_cached net c la lo).2.1 la lo).2.2 = false) ∧
    (∀ (net : Net) (c : List ((ℚ × ℚ) × String)) (la lo : ℚ),
      (get_nearby_amenities_cached net
          (get_nearby_amenities_cached net c la lo).2.1 la lo).1 =
          (get_nearby_amenities_cached net c la lo).1 ∧
      (get_nearby_amenities_cached net
          (get_nearby_amenities_cached net c la lo).2.1 la lo).2.2 = false) ∧
    (∀ (net : Net) (c : List ((ℚ × ℚ) × RoadInfo)) (la lo : ℚ),
      (get_road_info_google_roads_cached net
          (get_road_info_google_roads_cached net c la lo).2.1 la lo).1 =
          (get_road_info_google_roads_cached net c la lo).1 ∧
      (get_road_info_google_roads_cached net
          (get_road_info_google_roads_cached net c la lo).2.1 la lo).2.2 = false) ∧
    (∀ (hasKey : Bool) (resp : Except String TomTomResp),
      (get_tomtom_traffic hasKey resp).2.2 = if hasKey then 1 else 0) := by
  refine ⟨fun net c la lo => cachedProvider_idem _ c la lo,
    fun net c la lo => cachedProvider_idem _ c la lo,
    fun net c la lo => cachedProvider_idem _ c la lo,
    fun net c la lo => cachedProvider_idem _ c la lo,
    fun net c la lo => cachedProvider_idem _ c la lo,
    fun hasKey resp => ?_⟩
  cases hasKey with
  | false => rfl
  | true =>
    cases resp with
    | error e => rfl
    | ok rsp =>
      rcases rsp with ⟨st, cs, ff⟩
      cases cs <;> cases ff <;>
        first
          | rfl
          | (simp only [get_tomtom_traffic]; split_ifs <;> simp_all)

/-- C9: `get_tomtom_traffic` returns the N/A triple without raising when
the API key is missing, the request fails, or the response is unusable
(non-200 status, missing or zero speeds, non-positive free flow), and on
a usable response classifies congestion by the speed ratio: Low above
0.85, Medium above 0.6 up to 0.85, High at or below 0.6. -/
theorem get_tomtom_traffic_classification :
    (∀ net, get_tomtom_traffic false net = (⟨none, none, "N/A"⟩, [], 0)) ∧
    (∀ e, get_tomtom_traffic true (.error e) =
        (⟨none, none, "N/A"⟩, ["TomTom API error: " ++ e], 1)) ∧
    (∀ resp : TomTomResp, resp.status ≠ 200 →
        (get_tomtom_traffic true (.ok resp)).1 = ⟨none, none, "N/A"⟩) ∧
    (∀ sp ff : ℚ, sp ≠ 0 → 0 < ff →
        ((sp / ff > 0.85 →
            get_tomtom_traffic true (.ok ⟨200, ⟨some sp, some ff⟩⟩) =
              (⟨some sp, some ff, "Low"⟩, [], 1)) ∧
         (0.6 < sp / ff ∧ sp / ff ≤ 0.85 →
            get_tomtom_traffic true (.ok ⟨200, ⟨some sp, some ff⟩⟩) =
              (⟨some sp, some ff, "Medium"⟩, [], 1)) ∧
         (sp / ff ≤ 0.6 →
            get_tomtom_traffic true (.ok ⟨200, ⟨some sp, some ff⟩⟩) =
              (⟨some sp, some ff, "High"⟩, [], 1)))) ∧
    (∀ flow : FlowData,
        (flow.currentSpeed = none ∨ flow.freeFlowSpeed = none ∨
         flow.currentSpeed = some 0 ∨
         (∀ ff, flow.freeFlowSpeed = some ff → ff ≤ 0)) →
        (get_tomtom_traffic true (.ok ⟨200, flow⟩)).1 = ⟨none, none, "N/A"⟩) := by
  refine ⟨fun net => rfl, fun e => rfl, fun resp h => ?_, fun sp ff hsp hff => ?_, fun flow h => ?_⟩
  · simp [get_tomtom_traffic, h]
  · have hcond : sp ≠ 0 ∧ ff ≠ 0 ∧ ff > 0 := ⟨hsp, ne_of_gt hff, hff⟩
    refine ⟨fun h => ?_, fun h => ?_, fun h => ?_⟩
    · simp [get_tomtom_traffic, hcond, h]
    · simp [get_tomtom_traffic, hcond, h.1, not_lt.mpr h.2]
    · simp [get_tomtom_traffic, hcond, not_lt.mpr h,
        not_lt.mpr (le_trans h (by norm_num : (0.6 : ℚ) ≤ 0.85))]
  · rcases h with h | h | h | h
    · cases hff : flow.freeFlowSpeed <;> simp [get_tomtom_traffic, h, hff]
    · cases hcs : flow.currentSpeed <;> simp [get_tomtom_traffic, h, hcs]
    · cases hff : flow.freeFlowSpeed <;> simp [get_tomtom_traffic, h, hff]
    · cases hcs : flow.currentSpeed with
      | none => simp [get_tomtom_traffic, hcs]
      | some sp =>
        cases hff : flow.freeFlowSpeed with
        | none => simp [get_tomtom_traffic, hcs, hff]
        | some ff =>
          have hle := h ff hff
          have hnc : ¬(sp ≠ 0 ∧ ff ≠ 0 ∧ ff > 0) := fun hc =>
            absurd hc.2.2 (not_lt.mpr hle)
          simp [get_tomtom_traffic, hcs, hff, hnc]

/-- C9 witness: the three classification bands on concrete speeds. -/
theorem get_tomtom_traffic_classification_witness :
    get_tomtom_traffic true (.ok ⟨200, ⟨some 9, some 10⟩⟩) =
      (⟨some 9, some 10, "Low"⟩, [], 1) ∧
    get_tomtom_traffic true (.ok ⟨200, ⟨some 7, some 10⟩⟩) =
      (⟨some 7, some 10, "Medium"⟩, [], 1) ∧
    get_tomtom_traffic true (.ok ⟨200, ⟨some 5, some 10⟩⟩) =
      (⟨some 5, some 10, "High"⟩, [], 1) :=
  ⟨(get_tomtom_traffic_classification.2.2.2.1 9 10 (by norm_num) (by norm_num)).1
      (by norm_num),
   (get_tomtom_traffic_classification.2.2.2.1 7 10 (by norm_num) (by norm_num)).2.1
      ⟨by norm_num, by norm_num⟩,
   (get_tomtom_traffic_classification.2.2.2.1 5 10 (by norm_num) (by norm_num)).2.2
      (by norm_num)⟩

/-- C10: every record produced by `process_site` serialises to the same
fixed, ordered key set, whatever the provider outcomes; and the
competitor fields are always consistent with the station list: the count
is its length and the names field is the `"; "`-join of the station names
(`"None"` when the list is empty) — in particular whenever the EV lookup
succeeds. -/
theorem process_site_fixed_keys_and_ev_invariant :
    ∀ (net : Net) (la lo : ℚ) (f r u : ℤ) (fkw rkw ukw : ℚ),
      (toPairs (process_site net la lo f r u fkw rkw ukw).1).map Prod.fst =
          siteRecordKeys ∧
      (process_site net la lo f r u fkw rkw ukw).1.competitor_ev_count =
          (process_site net la lo f r u fkw rkw ukw).1.ev_stations_details.length ∧
      (process_site net la lo f r u fkw rkw ukw).1.competitor_ev_names =
          (if (process_site net la lo f r u fkw rkw ukw).1.ev_stations_details = []
           then "None"
           else String.intercalate "; "
             ((process_site net la lo f r u fkw rkw ukw).1.ev_stations_details.map
               EVStation.name)) := by
  intro net la lo f r u fkw rkw ukw
  exact ⟨rfl, rfl, rfl⟩
